import Mathlib

/-!
Verification of the `codespaces-models-demo` repository: standalone demo
scripts that call hosted chat-completion endpoints for structured text
generation and multimodal chat.  The embedding below translates, function
by function, the Python code of

  * `demo_agent_pydanticai.py`        (SimpleAgent / create_agent / __main__)
  * `demo_multimodal_pydantic.py`     (VisionAgent.process_message / main)
  * `pydantic-sample/demo_openai_multimodal_pydantic_v1.py`
  * `pydantic-sample/demo_openai_multimodal_pydantic_v2.py`  (ImageAnalysisAgent)
  * `pydantic-sample/demo_openai_structured_pydantic.py`
  * `demo_autogen.py`

The hosted endpoint is modelled as an oracle from requests to responses,
Python exceptions as explicit `Except` error values, and the process
environment as a function from variable names to optional strings.
Library behaviour the scripts rely on (pydantic validation, JSON parsing,
base64) is modelled executably and is marked as such in doc comments.
-/

namespace CodespacesModels

/-! ## JSON values

Models the JSON data that flows between the scripts and the endpoint.
Numeric literals are modelled as integers: no claim depends on fractional
values, and no fixture uses one. -/

inductive Json where
  | null
  | bool (b : Bool)
  | num (n : Int)
  | str (s : String)
  | arr (elems : List Json)
  | obj (members : List (String × Json))

/-- Last-writer-wins field lookup is irrelevant here; the scripts' fixtures
have distinct keys, so first-match lookup models `dict` access. -/
def lookupField (members : List (String × Json)) (k : String) : Option Json :=
  match members with
  | [] => none
  | (k2, v) :: rest => if k2 = k then some v else lookupField rest k

def asStr : Json → Option String
  | .str s => some s
  | _ => none

/-! ## A small JSON parser

Models `json` / pydantic parsing of the response text.  Recursion is
structural on a fuel counter, so every definition is executable and
kernel-reducible.  String escapes and fractional/exponent number forms are
not modelled; no claim or fixture needs them. -/

def skipWs : List Char → List Char
  | [] => []
  | c :: cs => if c = ' ' ∨ c = '\n' ∨ c = '\t' ∨ c = '\r' then skipWs cs else c :: cs

def parseStringBody : List Char → Option (String × List Char)
  | [] => none
  | c :: cs =>
    if c = '\"' then some ("", cs)
    else
      match parseStringBody cs with
      | some (s, rest) => some (String.mk (c :: s.data), rest)
      | none => none

def takeDigits : List Char → (List Char × List Char)
  | [] => ([], [])
  | c :: cs =>
    if c.isDigit then
      match takeDigits cs with
      | (d, r) => (c :: d, r)
    else ([], c :: cs)

def digitsToNat (ds : List Char) : Nat :=
  ds.foldl (fun acc c => acc * 10 + (c.toNat - 48)) 0

def parseNumber (input : List Char) : Option (Int × List Char) :=
  match input with
  | '-' :: rest =>
    match takeDigits rest with
    | ([], _) => none
    | (ds, r) => some (-(digitsToNat ds : Int), r)
  | _ =>
    match takeDigits input with
    | ([], _) => none
    | (ds, r) => some ((digitsToNat ds : Int), r)

def lbraceC : Char := Char.ofNat 123

def rbraceC : Char := Char.ofNat 125

/-- Tests whether `needle` is a leading segment of `hay`. -/
def leadEq : List Char → List Char → Bool
  | [], _ => true
  | _ :: _, [] => false
  | a :: as, b :: bs => a == b && leadEq as bs

/-- Tests whether `needle` occurs contiguously somewhere in `hay`. -/
def hasSeg (needle : List Char) : List Char → Bool
  | [] => needle.isEmpty
  | b :: bs => leadEq needle (b :: bs) || hasSeg needle bs

/-- What the parser is asked to produce next. -/
inductive PTask where
  | value
  | objMembers (acc : List (String × Json))
  | arrElems (acc : List Json)

inductive PRes where
  | val (j : Json)
  | objDone (l : List (String × Json))
  | arrDone (l : List Json)

def parseStep : Nat → PTask → List Char → Option (PRes × List Char)
  | 0, _, _ => none
  | Nat.succ fuel, PTask.value, input =>
    match skipWs input with
    | [] => none
    | c :: cs =>
      if c = '\"' then
        match parseStringBody cs with
        | some (s, rest) => some (PRes.val (Json.str s), rest)
        | none => none
      else if c = lbraceC then
        match skipWs cs with
        | c2 :: cs2 =>
          if c2 = rbraceC then some (PRes.val (Json.obj []), cs2)
          else
            match parseStep fuel (PTask.objMembers []) (c2 :: cs2) with
            | some (PRes.objDone l, rest) => some (PRes.val (Json.obj l), rest)
            | _ => none
        | [] => none
      else if c = '[' then
        match skipWs cs with
        | c2 :: cs2 =>
          if c2 = ']' then some (PRes.val (Json.arr []), cs2)
          else
            match parseStep fuel (PTask.arrElems []) (c2 :: cs2) with
            | some (PRes.arrDone l, rest) => some (PRes.val (Json.arr l), rest)
            | _ => none
        | [] => none
      else if leadEq "true".data (c :: cs) then
        some (PRes.val (Json.bool true), (c :: cs).drop 4)
      else if leadEq "false".data (c :: cs) then
        some (PRes.val (Json.bool false), (c :: cs).drop 5)
      else if leadEq "null".data (c :: cs) then
        some (PRes.val Json.null, (c :: cs).drop 4)
      else
        match parseNumber (c :: cs) with
        | some (n, rest) => some (PRes.val (Json.num n), rest)
        | none => none
  | Nat.succ fuel, PTask.objMembers acc, input =>
    match skipWs input with
    | c :: cs =>
      if c = '\"' then
        match parseStringBody cs with
        | some (k, rest) =>
          match skipWs rest with
          | c2 :: cs2 =>
            if c2 = ':' then
              match parseStep fuel PTask.value cs2 with
              | some (PRes.val v, rest2) =>
                match skipWs rest2 with
                | c3 :: cs3 =>
                  if c3 = ',' then
                    parseStep fuel (PTask.objMembers (acc ++ [(k, v)])) cs3
                  else if c3 = rbraceC then
                    some (PRes.objDone (acc ++ [(k, v)]), cs3)
                  else none
                | [] => none
              | _ => none
            else none
          | [] => none
        | none => none
      else none
    | [] => none
  | Nat.succ fuel, PTask.arrElems acc, input =>
    match parseStep fuel PTask.value input with
    | some (PRes.val v, rest) =>
      match skipWs rest with
      | c :: cs =>
        if c = ',' then parseStep fuel (PTask.arrElems (acc ++ [v])) cs
        else if c = ']' then some (PRes.arrDone (acc ++ [v]), cs)
        else none
      | [] => none
    | _ => none

/-- Parse a whole string as one JSON value; trailing non-whitespace rejects,
as `json.loads` does. -/
def parseJson (s : String) : Option Json :=
  match parseStep (2 * s.data.length + 16) PTask.value s.data with
  | some (PRes.val j, rest) => if (skipWs rest).isEmpty then some j else none
  | _ => none

/-! ## Base64 (models Python's `base64.b64encode`) -/

def b64Alphabet : List Char :=
  "ABCDEFGHIJKLMNOPQRSTUVWXYZabcdefghijklmnopqrstuvwxyz0123456789+/".data

def b64Char (n : Nat) : Char := b64Alphabet.getD n 'A'

def b64encodeList : List Nat → List Char
  | [] => []
  | [a] =>
    let a := a % 256
    [b64Char (a / 4), b64Char ((a % 4) * 16), '=', '=']
  | [a, b] =>
    let a := a % 256
    let b := b % 256
    [b64Char (a / 4), b64Char ((a % 4) * 16 + b / 16), b64Char ((b % 16) * 4), '=']
  | a :: b :: c :: rest =>
    let a := a % 256
    let b := b % 256
    let c := c % 256
    b64Char (a / 4) :: b64Char ((a % 4) * 16 + b / 16) ::
      b64Char ((b % 16) * 4 + c / 64) :: b64Char (c % 64) :: b64encodeList rest

/-- Bytes (as `Nat`s reduced mod 256) to their base64 text. -/
def b64encode (bs : List Nat) : String := String.mk (b64encodeList bs)

/-! ## Substring occurrence as a proposition -/

/-- Holds when `needle` occurs contiguously in `hay`: the spec-level reading
of "the payload / message contains ...". -/
def SubStr (needle hay : String) : Prop := ∃ a b, hay = a ++ needle ++ b

theorem strData_append (a b : String) : (a ++ b).data = a.data ++ b.data := by
  cases a
  cases b
  rfl

theorem SubStr.mem_data {needle hay : String} (hs : SubStr needle hay)
    {c : Char} (hc : c ∈ needle.data) : c ∈ hay.data := by
  obtain ⟨x, y, hxy⟩ := hs
  subst hxy
  rw [strData_append, strData_append]
  exact List.mem_append.mpr (Or.inl (List.mem_append.mpr (Or.inr hc)))

/-- A string starts with `p`. -/
def StartsWith (p s : String) : Prop := ∃ t, s = p ++ t

/-! ## Python-level effects shared by the script models -/

/-- The Python exceptions the scripts can raise or handle.  `except Exception`
branches catch every constructor here; the scripts raise no `BaseException`
outside this hierarchy. -/
inductive PyExc where
  | valueError (msg : String)
  | keyError (key : String)
  | nameError (name : String)
  | typeError (msg : String)
  | fileNotFoundError (path : String)
  | apiException (msg : String)
  | otherExc (msg : String)

/-- How a script's run ends: a normal exit (messages printed), or an
unhandled exception escaping to the interpreter. -/
inductive ScriptOutcome where
  | completed
  | propagated (e : PyExc)

/-- The process environment: `os.environ.get`. -/
def Env : Type := String → Option String

/-- Python truthiness of an optional string: `if not api_key` is true when
the variable is unset or set to the empty string. -/
def falsy : Option String → Bool
  | none => true
  | some s => s.isEmpty

namespace DemoAgent

/-! ## Embedding of `demo_agent_pydanticai.py` -/

/-- Embeds `class CityLocation(BaseModel)`. -/
structure CityLocation where
  city : String
  country : String

/-- Embeds `class Mountain(BaseModel)`. -/
structure Mountain where
  name : String
  height : String
  location : String

/-- Embeds `class DynamicResponse(BaseModel)`, whose model config allows
extra fields and which declares none: a validated value is just the JSON object's members. -/
structure DynamicResponse where
  fields : List (String × Json)

/-- The pydantic model classes the script passes as `output_type`. -/
inductive OutputType where
  | CityLocation
  | Mountain
  | DynamicResponse
deriving DecidableEq

/-- A validated instance of whichever model `output_type` names. -/
inductive OutputValue where
  | city (v : CityLocation)
  | mountain (v : Mountain)
  | dyn (v : DynamicResponse)

/-- Modelled library behaviour: `output_type.model_json_schema()` followed by
`json.dumps(schema, indent=2)`, as `run_sync` computes `schema_str`.  The text
reproduces pydantic v2 output for these three models. -/
def model_json_schema : OutputType → String
  | OutputType.CityLocation =>
    "\x7b\n  \"properties\": \x7b\n    \"city\": \x7b\n      \"title\": \"City\",\n      \"type\": \"string\"\n    \x7d,\n    \"country\": \x7b\n      \"title\": \"Country\",\n      \"type\": \"string\"\n    \x7d\n  \x7d,\n  \"required\": [\n    \"city\",\n    \"country\"\n  ],\n  \"title\": \"CityLocation\",\n  \"type\": \"object\"\n\x7d"
  | OutputType.Mountain =>
    "\x7b\n  \"properties\": \x7b\n    \"name\": \x7b\n      \"title\": \"Name\",\n      \"type\": \"string\"\n    \x7d,\n    \"height\": \x7b\n      \"title\": \"Height\",\n      \"type\": \"string\"\n    \x7d,\n    \"location\": \x7b\n      \"title\": \"Location\",\n      \"type\": \"string\"\n    \x7d\n  \x7d,\n  \"required\": [\n    \"name\",\n    \"height\",\n    \"location\"\n  ],\n  \"title\": \"Mountain\",\n  \"type\": \"object\"\n\x7d"
  | OutputType.DynamicResponse =>
    "\x7b\n  \"additionalProperties\": true,\n  \"description\": \"A flexible model that can handle any type of response\",\n  \"properties\": \x7b\x7d,\n  \"title\": \"DynamicResponse\",\n  \"type\": \"object\"\n\x7d"

/-- Modelled library behaviour: pydantic validation of an already-parsed JSON
value against `output_type`.  A `str` field accepts exactly a JSON string
(pydantic v2 does not coerce numbers to `str`); extra members are ignored for
the closed models and kept for `DynamicResponse` (`extra = "allow"`); non-object
input fails for every model. -/
def model_validate : OutputType → Json → Option OutputValue
  | OutputType.CityLocation, Json.obj fs =>
    match lookupField fs "city", lookupField fs "country" with
    | some (Json.str c), some (Json.str k) => some (OutputValue.city ⟨c, k⟩)
    | _, _ => none
  | OutputType.Mountain, Json.obj fs =>
    match lookupField fs "name", lookupField fs "height", lookupField fs "location" with
    | some (Json.str n), some (Json.str h), some (Json.str l) =>
        some (OutputValue.mountain ⟨n, h, l⟩)
    | _, _, _ => none
  | OutputType.DynamicResponse, Json.obj fs => some (OutputValue.dyn ⟨fs⟩)
  | _, _ => none

/-- Embeds `output_type.model_validate_json(json_content)`: parse the text, then
validate the value. -/
def model_validate_json (ty : OutputType) (s : String) : Option OutputValue :=
  (parseJson s).bind (model_validate ty)

/-- One entry of the `messages` list sent to the endpoint. -/
structure ChatMessage where
  role : String
  content : String

/-- The system content `run_sync` uses when `self.output_type == DynamicResponse`. -/
def dynamicSystemContent : String :=
  "You are a helpful assistant that provides information in a structured JSON format.\nPlease provide your answer as a JSON object with relevant key-value pairs that best answer the user\x27s question.\nBe concise but informative. Return ONLY valid JSON without any preamble or explanation."

/-- Text before `{schema_str}` in the non-dynamic system message f-string. -/
def schemaSysPre : String :=
  "You are a helpful assistant that outputs information in a specific JSON format.\nThe required output format follows this schema:\n"

/-- Text after `{schema_str}` in the non-dynamic system message f-string. -/
def schemaSysPost : String :=
  "\n\nOnly return valid JSON that matches this schema, without any preamble or explanation."

/-- Embeds `system_content` as selected by `if self.output_type == DynamicResponse`. -/
def systemContent (ty : OutputType) : String :=
  if ty = OutputType.DynamicResponse then dynamicSystemContent
  else schemaSysPre ++ model_json_schema ty ++ schemaSysPost

/-- The `messages` list `run_sync` builds: the system message, then the single
user message carrying the query. -/
def buildMessages (ty : OutputType) (query : String) : List ChatMessage :=
  [⟨"system", systemContent ty⟩, ⟨"user", query⟩]

/-- What `run_sync` observes of `self.client`: whether
`isinstance(self.client, AzureOpenAI)` holds, and the client's `base_url`
(an `httpx.URL` on an openai-v1 client; this field records its string form,
but the source's `in` test on the URL object raises `TypeError`, see
`callModel`). -/
structure Client where
  isAzure : Bool
  base_url : String

/-- One `client.chat.completions.create(...)` call's arguments.
`response_format_json` records that `response_format` requests a JSON object. -/
structure ChatRequest where
  model : String
  response_format_json : Bool
  messages : List ChatMessage

structure Usage where
  prompt_tokens : Nat
  completion_tokens : Nat
  total_tokens : Nat

/-- What `run_sync` reads from a successful response:
`response.choices[0].message.content` (optional in the API) and
`response.usage`. -/
structure ChatResponse where
  content : Option String
  usage : Usage

structure ApiError where
  msg : String

/-- The hosted endpoint, modelled as an oracle from requests to responses. -/
def Oracle : Type := ChatRequest → Except ApiError ChatResponse

/-- How the call section of `run_sync` can raise: the `TypeError` from the
`in` test on the client's `base_url`, or the client call's own exception. -/
inductive CallError where
  | typeError (msg : String)
  | apiError (e : ApiError)

/-- The message of the `TypeError` raised by
`"github.ai" in getattr(self.client, "base_url", "")`: on an openai-v1
client, `base_url` is an `httpx.URL`, which supports no `in` test
(no `__contains__`, `__iter__` or `__getitem__`). -/
def urlTypeErrorText : String := "argument of type \x27URL\x27 is not iterable"

/-- The call section of `run_sync`.  For an Azure client
(`isinstance(self.client, AzureOpenAI)`): one call with model `gpt-4o` and,
only if it raises, a fallback call with model `gpt-4` (whose failure
propagates).  For a non-Azure (github/local) client the branch first
evaluates `"github.ai" in getattr(self.client, "base_url", "")`, and since
`base_url` is an `httpx.URL`, that `in` raises `TypeError` before any call:
zero requests are issued.  Returns the outcome together with the list of
requests issued. -/
def callModel (c : Client) (o : Oracle) (messages : List ChatMessage) :
    Except CallError ChatResponse × List ChatRequest :=
  if c.isAzure then
    let r1 : ChatRequest := ⟨"gpt-4o", true, messages⟩
    match o r1 with
    | Except.ok resp => (Except.ok resp, [r1])
    | Except.error _ =>
      let r2 : ChatRequest := ⟨"gpt-4", true, messages⟩
      match o r2 with
      | Except.ok resp => (Except.ok resp, [r1, r2])
      | Except.error e => (Except.error (CallError.apiError e), [r1, r2])
  else
    (Except.error (CallError.typeError urlTypeErrorText), [])

/-- How `run_sync` can raise: the `TypeError` from the call section's
`base_url` test, the client call's exception propagating, or the
`ValueError` wrapping a failed validation. -/
inductive RunError where
  | typeError (msg : String)
  | apiError (e : ApiError)
  | valueError (msg : String)

/-- Lifts a call-section exception into `run_sync`'s error type (both
propagate unchanged through the method). -/
def liftCallError : CallError → RunError
  | CallError.typeError m => RunError.typeError m
  | CallError.apiError e => RunError.apiError e

/-- Embeds `AgentResult`: `output` plus the `usage_info` dict (`usage()` returns it). -/
structure AgentResult where
  output : OutputValue
  usage_info : Usage

/-- Embeds `SimpleAgent`: the two attributes `__init__` sets. -/
structure Agent where
  client : Client
  output_type : OutputType

/-- The message of the `ValueError` raised when validation fails
(the Python message interpolates the caught exception and the raw content;
the wrapped exception text is not modelled). -/
def failedParseMsg (c : Option String) : String :=
  "Failed to parse model output.\nOutput was: " ++
    (match c with | some s => s | none => "None")

/-- Embeds `SimpleAgent.run_sync`, in state-passing form: the returned `Agent` is the
object's state after the call.  The method reads `self.output_type` and
`self.client` and assigns no attribute, so every branch returns `self`. -/
def runSyncSt (self : Agent) (o : Oracle) (query : String) :
    (Except RunError AgentResult × List ChatRequest) × Agent :=
  let messages := buildMessages self.output_type query
  match callModel self.client o messages with
  | (Except.error e, reqs) => ((Except.error (liftCallError e), reqs), self)
  | (Except.ok response, reqs) =>
    let usage_info : Usage :=
      ⟨response.usage.prompt_tokens, response.usage.completion_tokens,
        response.usage.total_tokens⟩
    match response.content.bind (model_validate_json self.output_type) with
    | some output => ((Except.ok ⟨output, usage_info⟩, reqs), self)
    | none =>
        ((Except.error (RunError.valueError (failedParseMsg response.content)), reqs), self)

/-- The value `run_sync` returns (or the exception it raises). -/
def run_sync (a : Agent) (o : Oracle) (query : String) : Except RunError AgentResult :=
  ((runSyncSt a o query).1).1

/-- The chat-completion requests one `run_sync` call issues. -/
def run_sync_requests (a : Agent) (o : Oracle) (query : String) : List ChatRequest :=
  ((runSyncSt a o query).1).2

/-- Embeds `create_agent(provider_type, output_type)`.  The `try/except TypeError`
blocks around client construction only swap the HTTP transport for a library
quirk and construct the same client, so construction is modelled as total;
for the Azure client `run_sync` never consults `base_url`. -/
def create_agent (env : Env) (provider_type : String) (output_type : OutputType) :
    Except PyExc Agent :=
  if provider_type = "github" then
    if falsy (env "GITHUB_TOKEN") then
      Except.error (PyExc.valueError "GITHUB_TOKEN not set in environment")
    else Except.ok ⟨⟨false, "https://models.github.ai/inference"⟩, output_type⟩
  else if provider_type = "azure" then
    if falsy (env "AZURE_ENDPOINT") || falsy (env "AZURE_API_KEY") then
      Except.error (PyExc.valueError "AZURE_ENDPOINT or AZURE_API_KEY not set in environment")
    else Except.ok ⟨⟨true, (env "AZURE_ENDPOINT").getD ""⟩, output_type⟩
  else if provider_type = "local" then
    if falsy (env "OPENAI_API_KEY") then
      Except.error (PyExc.valueError "OPENAI_API_KEY not set in environment")
    else Except.ok ⟨⟨false, "https://api.openai.com/v1"⟩, output_type⟩
  else Except.error (PyExc.valueError ("Unsupported provider type: " ++ provider_type))

/-- The body of the script's `__main__` block inside its `try`: pick the
output type from `--schema`, create the agent, run the query, print.  Any
exception a step raises is returned as the error value. -/
def demoAgentBody (env : Env) (o : Oracle) (provider query : String)
    (schemaArg : Option String) : Except PyExc Unit :=
  let output_type :=
    match schemaArg with
    | some s =>
        if s = "city" then OutputType.CityLocation
        else if s = "mountain" then OutputType.Mountain
        else OutputType.DynamicResponse
    | none => OutputType.DynamicResponse
  match create_agent env provider output_type with
  | Except.error e => Except.error e
  | Except.ok agent =>
    match run_sync agent o query with
    | Except.error (RunError.typeError m) => Except.error (PyExc.typeError m)
    | Except.error (RunError.apiError e) => Except.error (PyExc.apiException e.msg)
    | Except.error (RunError.valueError m) => Except.error (PyExc.valueError m)
    | Except.ok _ => Except.ok ()

/-- The script's `__main__` block: the body runs inside one `try` whose
`except ValueError` prints configuration help and whose `except Exception`
prints the error and a traceback — both end the script normally. -/
def demo_agent_script (env : Env) (o : Oracle) (provider query : String)
    (schemaArg : Option String) : ScriptOutcome :=
  match demoAgentBody env o provider query schemaArg with
  | Except.ok _ => ScriptOutcome.completed
  | Except.error (PyExc.valueError _) => ScriptOutcome.completed
  | Except.error _ => ScriptOutcome.completed

end DemoAgent

namespace DemoMultimodal

/-! ## Embedding of `demo_multimodal_pydantic.py` -/

/-- One element of `MultiModalMessage.content`: `TextContent` (`type="text"`)
or `ImageContent` (`type="image"`, raw bytes plus a format tag). -/
inductive MMItem where
  | text (data : String)
  | image (data : List Nat) (fmt : String)

/-- Embeds `class MultiModalMessage(BaseModel)`. -/
structure MultiModalMessage where
  content : List MMItem
  source : String

/-- Embeds `class AssistantResponse(BaseModel)`; `role` defaults to `"assistant"`. -/
structure AssistantResponse where
  role : String := "assistant"
  content : String

/-- Embeds `" ".join(item.data for item in message.content if item.type == "text")`. -/
def extractPrompt (m : MultiModalMessage) : String :=
  String.intercalate " "
    (m.content.filterMap (fun i => match i with | MMItem.text d => some d | _ => none))

/-- Embeds `[item for item in message.content if item.type == "image"]`. -/
def imageItems (m : MultiModalMessage) : List (List Nat) :=
  m.content.filterMap (fun i => match i with | MMItem.image d _ => some d | _ => none)

/-- The `image_contents` list `process_message` builds: one `image_url`
entry holding the image's base64 data URL per image.  The source computes
this list and then never uses it. -/
def imageContentsOf (imgs : List (List Nat)) : List String :=
  imgs.map (fun d => "data:image/jpeg;base64," ++ b64encode d)

/-- One element of the payload's `"documents"` array. -/
structure Document where
  id : String
  language : String
  text : String

/-- The API payload `process_message` constructs. -/
structure Payload where
  documents : List Document

/-- The `payload` dict built in `process_message`: a single document holding
the prompt text, and nothing else — in particular none of `image_contents`. -/
def buildPayload (prompt : String) : Payload :=
  ⟨[⟨"1", "en", prompt⟩]⟩

/-- The JSON text of `payload` as the HTTP client would serialize it. -/
def renderDocument (d : Document) : String :=
  "\x7b\"id\": \"" ++ d.id ++ "\", \"language\": \"" ++ d.language ++
    "\", \"text\": \"" ++ d.text ++ "\"\x7d"

def renderPayload (p : Payload) : String :=
  "\x7b\"documents\": [" ++ String.intercalate ", " (p.documents.map renderDocument) ++ "]\x7d"

/-- An HTTP POST as `session.post` would issue it. -/
structure HttpRequest where
  url : String
  body : Payload

/-- The text `str(e)` for the `NameError` the body raises: the module never imports
`aiohttp`, so evaluating `aiohttp.ClientSession()` raises
`NameError("name 'aiohttp' is not defined")` before any request is sent. -/
def aiohttpNameErrorText : String := "name \x27aiohttp\x27 is not defined"

/-- Embeds `VisionAgent.process_message`, returning the response together with the
list of HTTP requests actually issued.  The method extracts the prompt and
the image items, and inside its `try` builds `image_contents` and `payload`;
the `async with aiohttp.ClientSession()` line then raises `NameError`
(`aiohttp` is not imported), which the `except Exception` branch turns into
a normal `AssistantResponse` whose content is `"Error: " + str(e)`.  No
request reaches the network, so the request list is empty. -/
def process_message (message : MultiModalMessage) : AssistantResponse × List HttpRequest :=
  let prompt := extractPrompt message
  let image_items := imageItems message
  let _image_contents := imageContentsOf image_items
  let _payload := buildPayload prompt
  let e := PyExc.nameError "aiohttp"
  match e with
  | _ => (⟨"assistant", "Error: " ++ aiohttpNameErrorText⟩, [])

/-- The script's `main()` has no `try/except`: if the `FoundryClient`
construction raises, the exception propagates; if the image file is missing,
`main` prints and returns; reading the file may raise and propagates;
`process_message` itself never raises (it returns its error as a response).
`clientInit` and `readFile` model the two library calls that can raise. -/
def multimodal_script (clientInit : Except PyExc Unit) (fileExists : Bool)
    (readFile : Except PyExc (List Nat)) : ScriptOutcome :=
  match clientInit with
  | Except.error e => ScriptOutcome.propagated e
  | Except.ok _ =>
    if fileExists = false then ScriptOutcome.completed
    else
      match readFile with
      | Except.error e => ScriptOutcome.propagated e
      | Except.ok bytes =>
        let message : MultiModalMessage :=
          ⟨[MMItem.text "Can you describe the content of this image?",
            MMItem.image bytes "jpeg"], "user"⟩
        match process_message message with
        | (_, _) => ScriptOutcome.completed

end DemoMultimodal

namespace PydanticSample

/-! ## Embedding of `pydantic-sample/demo_openai_multimodal_pydantic_v1.py`
and `..._v2.py` (they build identical requests; v1 runs at module level,
v2 inside `ImageAnalysisAgent.analyze_image`). -/

/-- Embeds `class Object(BaseModel)`.  `confidence: float` is modelled as an
integer-valued number; no claim or fixture uses a fractional value. -/
structure ObjectV where
  name : String
  confidence : Int
  attributes : String

/-- Embeds `class ImageDescription(BaseModel)`. -/
structure ImageDescription where
  summary : String
  objects : List ObjectV
  scene : String
  colors : List String
  time_of_day : String
  setting : String
  text_content : Option String

/-- Modelled library behaviour: validate one element of `objects`. -/
def validateObject (j : Json) : Option ObjectV :=
  match j with
  | Json.obj fs =>
    match lookupField fs "name", lookupField fs "confidence", lookupField fs "attributes" with
    | some (Json.str n), some (Json.num c), some (Json.str a) => some ⟨n, c, a⟩
    | _, _, _ => none
  | _ => none

def validateObjects : List Json → Option (List ObjectV)
  | [] => some []
  | j :: rest =>
    match validateObject j, validateObjects rest with
    | some o, some os => some (o :: os)
    | _, _ => none

def validateStrings : List Json → Option (List String)
  | [] => some []
  | Json.str s :: rest =>
    match validateStrings rest with
    | some ss => some (s :: ss)
    | none => none
  | _ => none

/-- Modelled library behaviour: pydantic validation of a parsed JSON value
against `ImageDescription`.  `time_of_day` and `setting` are `Literal`
fields; `text_content: Optional[str] = None` accepts a string, JSON null, or
absence. -/
def validateImageDescription (j : Json) : Option ImageDescription :=
  match j with
  | Json.obj fs =>
    match lookupField fs "summary", lookupField fs "objects", lookupField fs "scene",
        lookupField fs "colors", lookupField fs "time_of_day", lookupField fs "setting" with
    | some (Json.str su), some (Json.arr objs), some (Json.str sc),
        some (Json.arr cols), some (Json.str tod), some (Json.str se) =>
      if (tod = "Morning" ∨ tod = "Afternoon" ∨ tod = "Evening" ∨ tod = "Night")
          ∧ (se = "Indoor" ∨ se = "Outdoor" ∨ se = "Unknown") then
        match validateObjects objs, validateStrings cols with
        | some os, some cs =>
          match lookupField fs "text_content" with
          | none => some ⟨su, os, sc, cs, tod, se, none⟩
          | some Json.null => some ⟨su, os, sc, cs, tod, se, none⟩
          | some (Json.str t) => some ⟨su, os, sc, cs, tod, se, some t⟩
          | some _ => none
        | _, _ => none
      else none
    | _, _, _, _, _, _ => none
  | _ => none

/-- Embeds `ImageDescription.model_validate_json(json_response_content)`. -/
def imageDescription_validate_json (s : String) : Option ImageDescription :=
  (parseJson s).bind validateImageDescription

/-- One part of the user message's `content` list. -/
inductive Part where
  | text (t : String)
  | image_url (url : String)

/-- A message whose content is a list of parts, as both scripts build it. -/
structure MMChatMessage where
  role : String
  content : List Part

/-- A `client.chat.completions.create` call as both scripts issue it. -/
structure MMChatRequest where
  model : String
  response_format_json : Bool
  messages : List MMChatMessage
  temperature : Int

/-- The `prompt_text` f-string.  The interpolated
`{ImageDescription.model_json_schema()}` is the Python `repr` of the schema
dict; its exact text decides no claim and is abbreviated here. -/
def prompt_text : String :=
  "Analyze this image and describe what you see, including any objects, the scene, colors and any text you can detect.\nPlease provide the output in a JSON format that strictly adheres to the following Pydantic schema:\n" ++
    "<ImageDescription.model_json_schema()>" ++ "\n"

/-- The one request v1 and v2 build: a single user message whose content
pairs the text prompt with the base64 data URL of the image. -/
def mmRequest (b64Image : String) : MMChatRequest :=
  ⟨"openai/gpt-4o", true,
    [⟨"user", [Part.text prompt_text,
      Part.image_url ("data:image/jpeg;base64," ++ b64Image)]⟩], 0⟩

structure MMChatResponse where
  content : Option String

structure MMApiError where
  msg : String

/-- The endpoint for these two scripts. -/
def MMOracle : Type := MMChatRequest → Except MMApiError MMChatResponse

/-- How `analyze_image` can raise (each is re-raised after a print). -/
inductive V2Error where
  | fileNotFound
  | apiError (e : MMApiError)
  | valueError (msg : String)

/-- Embeds `ImageAnalysisAgent.analyze_image` (v2): read and base64-encode the file,
issue the one request, reject a `None` content, validate against
`ImageDescription`.  `readFile` models `open(image_path, "rb").read()`. -/
def analyze_image (o : MMOracle) (readFile : String → Option (List Nat))
    (image_path : String) : Except V2Error ImageDescription :=
  match readFile image_path with
  | none => Except.error V2Error.fileNotFound
  | some bytes =>
    let base64_image := b64encode bytes
    match o (mmRequest base64_image) with
    | Except.error e => Except.error (V2Error.apiError e)
    | Except.ok resp =>
      match resp.content with
      | none => Except.error (V2Error.valueError "Received an empty response from the API.")
      | some s =>
        match imageDescription_validate_json s with
        | some d => Except.ok d
        | none => Except.error (V2Error.valueError "validation failed")

/-- v1's module level: `client = OpenAI(..., api_key=os.environ["GITHUB_TOKEN"])`
runs before the `try`, so a missing `GITHUB_TOKEN` raises `KeyError` with no
handler; inside the `try`, `except FileNotFoundError` and `except Exception`
catch everything the body raises. -/
def v1_script (env : Env) (body : Except PyExc Unit) : ScriptOutcome :=
  match env "GITHUB_TOKEN" with
  | none => ScriptOutcome.propagated (PyExc.keyError "GITHUB_TOKEN")
  | some _ =>
    match body with
    | Except.ok _ => ScriptOutcome.completed
    | Except.error _ => ScriptOutcome.completed

/-- v2's `__main__`: the missing-file case prints and skips the run; the
`try` around agent construction and `analyze_image` has `except ValueError`
and `except Exception`, so every exception ends in a print. -/
def v2_script (env : Env) (fileExists : Bool) (o : MMOracle)
    (readFile : String → Option (List Nat)) (image_path : String) : ScriptOutcome :=
  if fileExists = false then ScriptOutcome.completed
  else
    if falsy (env "GITHUB_TOKEN") then ScriptOutcome.completed
    else
      match analyze_image o readFile image_path with
      | Except.ok _ => ScriptOutcome.completed
      | Except.error _ => ScriptOutcome.completed

/-- Embeds `demo_openai_structured_pydantic.py`: the module-level
`client = OpenAI(..., api_key=os.environ["GITHUB_TOKEN"])` precedes the
`try`, so a missing token propagates `KeyError`; the `try/except Exception`
around the `parse` call catches everything else. -/
def structured_script (env : Env) (body : Except PyExc Unit) : ScriptOutcome :=
  match env "GITHUB_TOKEN" with
  | none => ScriptOutcome.propagated (PyExc.keyError "GITHUB_TOKEN")
  | some _ =>
    match body with
    | Except.ok _ => ScriptOutcome.completed
    | Except.error _ => ScriptOutcome.completed

end PydanticSample

namespace DemoAutogen

/-! ## Embedding of `demo_autogen.py` (top-level structure) -/

/-- Embeds `main()` in `demo_autogen.py`, which has no `try/except` anywhere:
`os.environ["GITHUB_TOKEN"]` raises `KeyError` when the variable is unset,
and any exception from the client/agent construction, the image fetch, or
the message send (modelled together as `rest`) propagates unhandled. -/
def autogen_script (env : Env) (rest : Except PyExc Unit) : ScriptOutcome :=
  match env "GITHUB_TOKEN" with
  | none => ScriptOutcome.propagated (PyExc.keyError "GITHUB_TOKEN")
  | some _ =>
    match rest with
    | Except.error e => ScriptOutcome.propagated e
    | Except.ok _ => ScriptOutcome.completed

end DemoAutogen

namespace DemoAgent

/-- Validation of the optional response content, as the `try` block around
`model_validate_json` sees it: a `None` content fails like invalid JSON. -/
def contentValidate (ty : OutputType) (c : Option String) : Option OutputValue :=
  c.bind (model_validate_json ty)

/-- The `usage_info` dict `run_sync` builds from `response.usage`. -/
def usageOf (resp : ChatResponse) : Usage :=
  ⟨resp.usage.prompt_tokens, resp.usage.completion_tokens, resp.usage.total_tokens⟩

end DemoAgent

namespace PydanticSample

/-- The content of the endpoint's answer, when it answered at all. -/
def mmRespContent : Except MMApiError MMChatResponse → Option String
  | Except.ok r => r.content
  | Except.error _ => none

end PydanticSample

/-! ## Concrete fixtures used by witnesses and counterexamples -/

/-- The client `create_agent` builds for the `github` provider. -/
def githubClient : DemoAgent.Client := ⟨false, "https://models.github.ai/inference"⟩

def cityAgent : DemoAgent.Agent := ⟨githubClient, DemoAgent.OutputType.CityLocation⟩

def azureAgent : DemoAgent.Agent :=
  ⟨⟨true, "https://example.openai.azure.com/"⟩, DemoAgent.OutputType.CityLocation⟩

/-- An Azure-client agent with `DynamicResponse` output: the Azure path is
the one on which the call section reaches the endpoint. -/
def dynAgent : DemoAgent.Agent :=
  ⟨⟨true, "https://example.openai.azure.com/"⟩, DemoAgent.OutputType.DynamicResponse⟩

def cityJson : String := "\x7b\"city\": \"London\", \"country\": \"UK\"\x7d"

def okUsage : DemoAgent.Usage := ⟨10, 5, 15⟩

def cityResp : DemoAgent.ChatResponse := ⟨some cityJson, okUsage⟩

/-- An endpoint that answers every request with the CityLocation JSON. -/
def okOracle : DemoAgent.Oracle := fun _ => Except.ok cityResp

/-- An endpoint that rejects the `gpt-4o` call and accepts the fallback. -/
def azureFlakyOracle : DemoAgent.Oracle :=
  fun r =>
    if r.model = "gpt-4o" then Except.error ⟨"503 service unavailable"⟩
    else Except.ok cityResp

def emptyObjResp : DemoAgent.ChatResponse := ⟨some "\x7b\x7d", okUsage⟩

/-- An endpoint that answers every request with the empty JSON object. -/
def emptyObjOracle : DemoAgent.Oracle := fun _ => Except.ok emptyObjResp

def sampleMessage : DemoMultimodal.MultiModalMessage :=
  ⟨[DemoMultimodal.MMItem.text "Can you describe the content of this image?",
    DemoMultimodal.MMItem.image [255, 216, 255] "jpeg"], "user"⟩

def idJson : String :=
  "\x7b\"summary\":\"a\",\"objects\":[],\"scene\":\"b\",\"colors\":[],\"time_of_day\":\"Morning\",\"setting\":\"Indoor\"\x7d"

def sampleDescription : PydanticSample.ImageDescription :=
  ⟨"a", [], "b", [], "Morning", "Indoor", none⟩

def idOracle : PydanticSample.MMOracle := fun _ => Except.ok ⟨some idJson⟩

def idReadFile : String → Option (List Nat) := fun _ => some [1, 2, 3]

/-- An environment with every variable unset. -/
def emptyEnv : Env := fun _ => none

/-- An environment holding only a GitHub token. -/
def githubEnv : Env := fun k => if k = "GITHUB_TOKEN" then some "ghp-token" else none

/-! ## Helper lemmas shared by the claim theorems -/

/-- States that `run_sync` assigns no attribute of `self`: every branch of the
state-passing embedding returns the input agent. -/
theorem runSyncSt_state_fixed (a : DemoAgent.Agent) (o : DemoAgent.Oracle) (q : String) :
    (DemoAgent.runSyncSt a o q).2 = a := by
  rcases h : DemoAgent.callModel a.client o (DemoAgent.buildMessages a.output_type q)
    with ⟨apiR, reqs⟩
  cases apiR with
  | error e => simp [DemoAgent.runSyncSt, h]
  | ok resp =>
    simp only [DemoAgent.runSyncSt, h]
    split <;> rfl

/-- Once the call section has produced a response, `run_sync` is exactly the
validate-or-raise step on that response's content. -/
theorem run_sync_eq_of_callModel (a : DemoAgent.Agent) (o : DemoAgent.Oracle) (q : String)
    (resp : DemoAgent.ChatResponse) (reqs : List DemoAgent.ChatRequest)
    (hcm : DemoAgent.callModel a.client o (DemoAgent.buildMessages a.output_type q) =
      (Except.ok resp, reqs)) :
    DemoAgent.run_sync a o q =
      (match DemoAgent.contentValidate a.output_type resp.content with
       | some v => Except.ok ⟨v, DemoAgent.usageOf resp⟩
       | none => Except.error
           (DemoAgent.RunError.valueError (DemoAgent.failedParseMsg resp.content))) := by
  cases hv : DemoAgent.contentValidate a.output_type resp.content with
  | some v =>
    simp only [DemoAgent.run_sync, DemoAgent.runSyncSt, hcm]
    rw [show resp.content.bind (DemoAgent.model_validate_json a.output_type) = some v from hv]
    rfl
  | none =>
    simp only [DemoAgent.run_sync, DemoAgent.runSyncSt, hcm]
    rw [show resp.content.bind (DemoAgent.model_validate_json a.output_type) = none from hv]

/-- The requests `run_sync` issues are exactly those of its call section. -/
theorem run_sync_requests_eq (a : DemoAgent.Agent) (o : DemoAgent.Oracle) (q : String) :
    DemoAgent.run_sync_requests a o q =
      (DemoAgent.callModel a.client o (DemoAgent.buildMessages a.output_type q)).2 := by
  rcases h : DemoAgent.callModel a.client o (DemoAgent.buildMessages a.output_type q)
    with ⟨apiR, reqs⟩
  cases apiR with
  | error e => simp [DemoAgent.run_sync_requests, DemoAgent.runSyncSt, h]
  | ok resp =>
    simp only [DemoAgent.run_sync_requests, DemoAgent.runSyncSt, h]
    split <;> rfl

/-! ## Claim theorems -/

/-- C1 (counterexample): with an Azure client whose `gpt-4o` call raises,
`SimpleAgent.run_sync` issues two chat-completion requests for one call —
the second being the `gpt-4` fallback — so it does not invoke the client's
chat-completion operation exactly once per call. -/
theorem azure_fallback_issues_two_requests :
    (DemoAgent.run_sync_requests azureAgent azureFlakyOracle
        "Where were the olympics held in 2012?").length = 2 ∧
    (DemoAgent.run_sync_requests azureAgent azureFlakyOracle
        "Where were the olympics held in 2012?").length ≠ 1 := by
  exact ⟨rfl, by decide⟩

/-- C1 (amended): per `run_sync` call, an Azure client receives one
chat-completion request when the `gpt-4o` call succeeds and two (the
`gpt-4` fallback) when it raises, while a non-Azure (github/local) client
receives zero — the `"github.ai" in self.client.base_url` test raises
`TypeError` on the client's `httpx.URL` before any call, and `run_sync`
propagates that `TypeError`; and `VisionAgent.process_message` issues zero
HTTP requests per message, because the unimported `aiohttp` raises
`NameError` before the request is sent. -/
theorem request_count_characterization (a : DemoAgent.Agent) (o : DemoAgent.Oracle)
    (q : String) (m : DemoMultimodal.MultiModalMessage) :
    (DemoAgent.run_sync_requests a o q).length =
      (if a.client.isAzure then
        match o ⟨"gpt-4o", true, DemoAgent.buildMessages a.output_type q⟩ with
        | Except.ok _ => 1
        | Except.error _ => 2
       else 0) ∧
    (a.client.isAzure = true ∨
      DemoAgent.run_sync a o q =
        Except.error (DemoAgent.RunError.typeError DemoAgent.urlTypeErrorText)) ∧
    (DemoMultimodal.process_message m).2 = [] := by
  refine ⟨?_, ?_, rfl⟩
  · rw [run_sync_requests_eq]
    by_cases hA : a.client.isAzure
    · simp only [DemoAgent.callModel, hA, if_pos]
      cases h : o ⟨"gpt-4o", true, DemoAgent.buildMessages a.output_type q⟩ with
      | ok resp => simp
      | error e =>
        cases o ⟨"gpt-4", true, DemoAgent.buildMessages a.output_type q⟩ <;> simp
    · simp [DemoAgent.callModel, hA]
  · by_cases hA : a.client.isAzure
    · exact Or.inl hA
    · refine Or.inr ?_
      simp [DemoAgent.run_sync, DemoAgent.runSyncSt, DemoAgent.callModel, hA,
        DemoAgent.liftCallError]

/-- C3 (counterexample): for `output_type = DynamicResponse` the system
message `run_sync` sends is the fixed generic instruction, which does not
contain the JSON schema of `DynamicResponse` (the schema text contains a
brace, the fixed instruction contains none). -/
theorem dynamic_system_message_lacks_schema :
    (DemoAgent.buildMessages DemoAgent.OutputType.DynamicResponse "q").head? =
      some ⟨"system", DemoAgent.dynamicSystemContent⟩ ∧
    ¬ SubStr (DemoAgent.model_json_schema DemoAgent.OutputType.DynamicResponse)
        DemoAgent.dynamicSystemContent := by
  refine ⟨rfl, ?_⟩
  intro h
  have hb : Char.ofNat 123 ∈
      (DemoAgent.model_json_schema DemoAgent.OutputType.DynamicResponse).data := by decide
  exact absurd (SubStr.mem_data h hb) (by decide)

/-- C3 (amended): `run_sync` always sends exactly the system message followed
by the single user message carrying the query, and for every `output_type`
other than `DynamicResponse` the system message contains the JSON schema of
`output_type`; for `DynamicResponse` it is the fixed generic instruction. -/
theorem system_message_schema_characterization (ty : DemoAgent.OutputType) (q : String) :
    DemoAgent.buildMessages ty q =
      [⟨"system", DemoAgent.systemContent ty⟩, ⟨"user", q⟩] ∧
    (ty = DemoAgent.OutputType.DynamicResponse ∨
      SubStr (DemoAgent.model_json_schema ty) (DemoAgent.systemContent ty)) := by
  refine ⟨rfl, ?_⟩
  cases ty with
  | DynamicResponse => exact Or.inl rfl
  | CityLocation => exact Or.inr ⟨DemoAgent.schemaSysPre, DemoAgent.schemaSysPost, rfl⟩
  | Mountain => exact Or.inr ⟨DemoAgent.schemaSysPre, DemoAgent.schemaSysPost, rfl⟩

/-- C7: `run_sync` never modifies the agent's state — after any call,
returning or raising, `self.client` and `self.output_type` (the whole
`Agent` state) equal their values before the call. -/
theorem run_sync_preserves_agent_state (a : DemoAgent.Agent) (o : DemoAgent.Oracle)
    (q : String) : (DemoAgent.runSyncSt a o q).2 = a :=
  runSyncSt_state_fixed a o q

/-- C8: with the endpoint modelled as a function from requests to responses,
`run_sync` is a deterministic, stateless pass-through: a call made after any
prior call (of any query) returns exactly what a fresh call returns — equal
outputs, equal usage dictionaries, equal requests — with no dependence on
the prior call. -/
theorem run_sync_stateless_deterministic (a : DemoAgent.Agent) (o : DemoAgent.Oracle)
    (q q' : String) :
    DemoAgent.runSyncSt ((DemoAgent.runSyncSt a o q').2) o q = DemoAgent.runSyncSt a o q ∧
    DemoAgent.run_sync ((DemoAgent.runSyncSt a o q').2) o q = DemoAgent.run_sync a o q := by
  rw [runSyncSt_state_fixed]
  exact ⟨rfl, rfl⟩

/-- C4: when the client call produced a response, `run_sync` returns normally
exactly the value obtained by validating the response content against
`output_type` (inside an `AgentResult`), and it raises `ValueError` if and
only if that validation fails; and `analyze_image` returns only values that
validate against the `ImageDescription` schema — an `ok` result is the
validation of the content the endpoint returned for the encoded file. -/
theorem run_sync_validation_correct (a : DemoAgent.Agent) (o : DemoAgent.Oracle)
    (q : String) (resp : DemoAgent.ChatResponse) (reqs : List DemoAgent.ChatRequest)
    (hcm : DemoAgent.callModel a.client o (DemoAgent.buildMessages a.output_type q) =
      (Except.ok resp, reqs))
    (o2 : PydanticSample.MMOracle) (rf : String → Option (List Nat)) (p : String)
    (d : PydanticSample.ImageDescription)
    (h2 : PydanticSample.analyze_image o2 rf p = Except.ok d) :
    ((∀ r, DemoAgent.run_sync a o q = Except.ok r →
        DemoAgent.contentValidate a.output_type resp.content = some r.output) ∧
     ((∃ m, DemoAgent.run_sync a o q = Except.error (DemoAgent.RunError.valueError m)) ↔
        DemoAgent.contentValidate a.output_type resp.content = none)) ∧
    (∃ bytes s, rf p = some bytes ∧
      PydanticSample.mmRespContent (o2 (PydanticSample.mmRequest (b64encode bytes))) = some s ∧
      PydanticSample.imageDescription_validate_json s = some d) := by
  constructor
  · have hrun := run_sync_eq_of_callModel a o q resp reqs hcm
    cases hv : DemoAgent.contentValidate a.output_type resp.content with
    | some v =>
      rw [hv] at hrun
      have hrun2 : DemoAgent.run_sync a o q =
          Except.ok ⟨v, DemoAgent.usageOf resp⟩ := hrun
      constructor
      · intro r hr
        rw [hrun2] at hr
        injection hr with hr2
        rw [← hr2]
      · constructor
        · rintro ⟨m, hm⟩
          rw [hrun2] at hm
          exact absurd hm (by simp)
        · intro hnone
          exact absurd hnone (by simp)
    | none =>
      rw [hv] at hrun
      have hrun2 : DemoAgent.run_sync a o q =
          Except.error (DemoAgent.RunError.valueError
            (DemoAgent.failedParseMsg resp.content)) := hrun
      constructor
      · intro r hr
        rw [hrun2] at hr
        exact absurd hr (by simp)
      · exact iff_of_true ⟨_, hrun2⟩ rfl
  · cases hrf : rf p with
    | none => simp [PydanticSample.analyze_image, hrf] at h2
    | some bytes =>
      cases ho : o2 (PydanticSample.mmRequest (b64encode bytes)) with
      | error e => simp [PydanticSample.analyze_image, hrf, ho] at h2
      | ok r =>
        cases hc : r.content with
        | none => simp [PydanticSample.analyze_image, hrf, ho, hc] at h2
        | some s =>
          cases hval : PydanticSample.imageDescription_validate_json s with
          | none => simp [PydanticSample.analyze_image, hrf, ho, hc, hval] at h2
          | some d2 =>
            have hd : d2 = d := by
              simp [PydanticSample.analyze_image, hrf, ho, hc, hval] at h2
              exact h2
            exact ⟨bytes, s, rfl,
              by rw [ho]; simp [PydanticSample.mmRespContent, hc],
              by rw [hval, hd]⟩

/-- C4 (witness): at the Azure agent with a CityLocation answer, `run_sync`
returns its validated output, raises no `ValueError`, and `analyze_image`
returns a schema-valid description. -/
theorem run_sync_validation_correct_witness :
    ((∀ r, DemoAgent.run_sync azureAgent okOracle "q" = Except.ok r →
        DemoAgent.contentValidate azureAgent.output_type cityResp.content = some r.output) ∧
     ((∃ m, DemoAgent.run_sync azureAgent okOracle "q" =
        Except.error (DemoAgent.RunError.valueError m)) ↔
        DemoAgent.contentValidate azureAgent.output_type cityResp.content = none)) ∧
    (∃ bytes s, idReadFile "./sample.png" = some bytes ∧
      PydanticSample.mmRespContent (idOracle (PydanticSample.mmRequest (b64encode bytes))) =
        some s ∧
      PydanticSample.imageDescription_validate_json s = some sampleDescription) :=
  run_sync_validation_correct azureAgent okOracle "q" cityResp
    [⟨"gpt-4o", true, DemoAgent.buildMessages DemoAgent.OutputType.CityLocation "q"⟩]
    rfl idOracle idReadFile "./sample.png" sampleDescription rfl

/-- C5: `create_agent` raises `ValueError` exactly when the provider is not
one of `github`/`azure`/`local` or the provider's credential variables are
unset or empty; otherwise it returns an agent whose `output_type` is the
`output_type` argument. -/
theorem create_agent_valueerror_iff (env : Env) (p : String) (ty : DemoAgent.OutputType) :
    ((∃ m, DemoAgent.create_agent env p ty = Except.error (PyExc.valueError m)) ↔
      (¬ (p = "github" ∨ p = "azure" ∨ p = "local") ∨
       (p = "github" ∧ falsy (env "GITHUB_TOKEN") = true) ∨
       (p = "azure" ∧ (falsy (env "AZURE_ENDPOINT") = true ∨
          falsy (env "AZURE_API_KEY") = true)) ∨
       (p = "local" ∧ falsy (env "OPENAI_API_KEY") = true))) ∧
    (∀ a, DemoAgent.create_agent env p ty = Except.ok a → a.output_type = ty) := by
  constructor
  · by_cases h1 : p = "github"
    · subst h1
      by_cases hf : falsy (env "GITHUB_TOKEN") <;>
        simp [DemoAgent.create_agent, hf]
    · by_cases h2 : p = "azure"
      · subst h2
        by_cases he : falsy (env "AZURE_ENDPOINT") <;>
          by_cases hk : falsy (env "AZURE_API_KEY") <;>
            simp [DemoAgent.create_agent, he, hk]
      · by_cases h3 : p = "local"
        · subst h3
          by_cases hf : falsy (env "OPENAI_API_KEY") <;>
            simp [DemoAgent.create_agent, hf]
        · simp [DemoAgent.create_agent, h1, h2, h3]
  · intro a ha
    unfold DemoAgent.create_agent at ha
    split_ifs at ha <;> simp_all <;> simp [← ha]

/-- C5 (witness): with `GITHUB_TOKEN` set, the `github` provider raises no
`ValueError` and the built agent keeps the requested `output_type`. -/
theorem create_agent_valueerror_iff_witness :
    cityAgent.output_type = DemoAgent.OutputType.CityLocation ∧
    ¬ (∃ m, DemoAgent.create_agent githubEnv "github" DemoAgent.OutputType.CityLocation =
        Except.error (PyExc.valueError m)) := by
  constructor
  · exact (create_agent_valueerror_iff githubEnv "github"
      DemoAgent.OutputType.CityLocation).2 cityAgent rfl
  · intro h
    have := (create_agent_valueerror_iff githubEnv "github"
      DemoAgent.OutputType.CityLocation).1.mp h
    revert this
    decide

/-- C6: `process_message` is total at its interface — for every multimodal
message it returns a normal `AssistantResponse` whose `role` is
`"assistant"` (no exception escapes: the embedding returns a plain value,
the one raised exception being caught by its `except Exception`), and the
failure's content string begins with `"Error"`. -/
theorem process_message_interface_total (m : DemoMultimodal.MultiModalMessage) :
    (DemoMultimodal.process_message m).1.role = "assistant" ∧
    StartsWith "Error" (DemoMultimodal.process_message m).1.content :=
  ⟨rfl, ⟨": " ++ DemoMultimodal.aiohttpNameErrorText, rfl⟩⟩

/-- C9: if the response content is a syntactically valid JSON object, the
validation step for `DynamicResponse` cannot fail — it accepts the object's
members verbatim, so the `except` branch raising
`ValueError("Failed to parse model output: ...")` is unreachable: `run_sync`
with `output_type = DynamicResponse` and such a content raises no
`ValueError`. -/
theorem dynamic_validation_cannot_fail (s : String) (fs : List (String × Json))
    (h : parseJson s = some (Json.obj fs)) :
    DemoAgent.model_validate_json DemoAgent.OutputType.DynamicResponse s =
      some (DemoAgent.OutputValue.dyn ⟨fs⟩) ∧
    (∀ a o q resp reqs, a.output_type = DemoAgent.OutputType.DynamicResponse →
      DemoAgent.callModel a.client o (DemoAgent.buildMessages a.output_type q) =
        (Except.ok resp, reqs) →
      resp.content = some s →
      ∀ m, DemoAgent.run_sync a o q ≠ Except.error (DemoAgent.RunError.valueError m)) := by
  have hval : DemoAgent.model_validate_json DemoAgent.OutputType.DynamicResponse s =
      some (DemoAgent.OutputValue.dyn ⟨fs⟩) := by
    unfold DemoAgent.model_validate_json
    rw [h]
    rfl
  refine ⟨hval, ?_⟩
  intro a o q resp reqs hty hcm hc m hcontra
  have hrun := run_sync_eq_of_callModel a o q resp reqs hcm
  rw [hc] at hrun
  rw [show DemoAgent.contentValidate a.output_type (some s) =
      some (DemoAgent.OutputValue.dyn ⟨fs⟩) by
    rw [DemoAgent.contentValidate, hty, Option.bind, hval]] at hrun
  rw [hrun] at hcontra
  exact absurd hcontra (by simp)

/-- C9 (witness): the empty JSON object parses, validates as a
`DynamicResponse`, and a `run_sync` on it raises nothing. -/
theorem dynamic_validation_cannot_fail_witness :
    DemoAgent.model_validate_json DemoAgent.OutputType.DynamicResponse "\x7b\x7d" =
      some (DemoAgent.OutputValue.dyn ⟨[]⟩) ∧
    DemoAgent.run_sync dynAgent emptyObjOracle "q" ≠
      Except.error (DemoAgent.RunError.valueError "x") :=
  ⟨(dynamic_validation_cannot_fail "\x7b\x7d" [] rfl).1,
   (dynamic_validation_cannot_fail "\x7b\x7d" [] rfl).2 dynAgent emptyObjOracle "q"
     emptyObjResp
     [⟨"gpt-4o", true,
        DemoAgent.buildMessages DemoAgent.OutputType.DynamicResponse "q"⟩]
     rfl rfl rfl "x"⟩

/-- Appending the empty string is the identity. -/
theorem string_append_empty (s : String) : s ++ "" = s := by
  cases s with
  | mk data =>
    show String.mk (data ++ []) = String.mk data
    rw [List.append_nil]

/-- C2 (code bug, evaluated at the failing input): in
`demo_multimodal_pydantic.py`, for a message carrying one text item and one
image item, the payload `process_message` constructs holds only the text
document — the base64 image data appears nowhere in its serialized form,
even though `image_contents` was computed from the image — whereas the
v1/v2 scripts' request pairs the text prompt with the image data URL, which
contains the base64-encoded image. -/
theorem multimodal_payload_drops_images :
    (DemoMultimodal.imageItems sampleMessage).length = 1 ∧
    DemoMultimodal.buildPayload (DemoMultimodal.extractPrompt sampleMessage) =
      ⟨[⟨"1", "en", "Can you describe the content of this image?"⟩]⟩ ∧
    ¬ SubStr (b64encode [255, 216, 255])
      (DemoMultimodal.renderPayload
        (DemoMultimodal.buildPayload (DemoMultimodal.extractPrompt sampleMessage))) ∧
    (∀ b64Image : String,
      (PydanticSample.mmRequest b64Image).messages =
        [⟨"user", [PydanticSample.Part.text PydanticSample.prompt_text,
          PydanticSample.Part.image_url ("data:image/jpeg;base64," ++ b64Image)]⟩] ∧
      SubStr b64Image ("data:image/jpeg;base64," ++ b64Image)) := by
  refine ⟨rfl, rfl, ?_, ?_⟩
  · intro h
    have hb : '/' ∈ (b64encode [255, 216, 255]).data := by decide
    exact absurd (SubStr.mem_data h hb) (by decide)
  · intro b64Image
    refine ⟨rfl, "data:image/jpeg;base64,", "", ?_⟩
    rw [string_append_empty]

/-- C10 (counterexample): `demo_autogen.py` has no top-level `try/except`;
with `GITHUB_TOKEN` unset, `os.environ["GITHUB_TOKEN"]` raises a `KeyError`
that propagates, so this demo script terminates by an unhandled exception. -/
theorem autogen_propagates_keyerror :
    DemoAutogen.autogen_script emptyEnv (Except.ok ()) =
      ScriptOutcome.propagated (PyExc.keyError "GITHUB_TOKEN") := rfl

/-- C10 (amended): `demo_agent_pydanticai.py` and the pydantic-sample v2
script handle any exception in their single top-level `try/except` and end
normally; v1 and the structured script catch everything inside their `try`
but construct the client (reading `GITHUB_TOKEN`) before it, so an unset
token propagates a `KeyError`; `demo_multimodal_pydantic.py`'s `main` and
`demo_autogen.py` have no top-level handler and propagate whatever their
bodies raise. -/
theorem top_level_exception_handling :
    (∀ env o provider query schemaArg,
      DemoAgent.demo_agent_script env o provider query schemaArg =
        ScriptOutcome.completed) ∧
    (∀ env fileExists o rf path,
      PydanticSample.v2_script env fileExists o rf path = ScriptOutcome.completed) ∧
    (∀ env body, PydanticSample.v1_script env body =
      (match env "GITHUB_TOKEN" with
       | none => ScriptOutcome.propagated (PyExc.keyError "GITHUB_TOKEN")
       | some _ => ScriptOutcome.completed)) ∧
    (∀ env body, PydanticSample.structured_script env body =
      (match env "GITHUB_TOKEN" with
       | none => ScriptOutcome.propagated (PyExc.keyError "GITHUB_TOKEN")
       | some _ => ScriptOutcome.completed)) ∧
    (∀ e fileExists readFile,
      DemoMultimodal.multimodal_script (Except.error e) fileExists readFile =
        ScriptOutcome.propagated e) ∧
    (∀ env rest, DemoAutogen.autogen_script env rest =
      (match env "GITHUB_TOKEN" with
       | none => ScriptOutcome.propagated (PyExc.keyError "GITHUB_TOKEN")
       | some _ =>
         match rest with
         | Except.error e => ScriptOutcome.propagated e
         | Except.ok _ => ScriptOutcome.completed)) := by
  refine ⟨?_, ?_, ?_, ?_, ?_, ?_⟩
  · intro env o provider query schemaArg
    cases h : DemoAgent.demoAgentBody env o provider query schemaArg with
    | ok u => simp [DemoAgent.demo_agent_script, h]
    | error e => cases e <;> simp [DemoAgent.demo_agent_script, h]
  · intro env fileExists o rf path
    unfold PydanticSample.v2_script
    split_ifs
    · rfl
    · rfl
    · cases PydanticSample.analyze_image o rf path <;> rfl
  · intro env body
    unfold PydanticSample.v1_script
    cases env "GITHUB_TOKEN" with
    | none => rfl
    | some t => cases body <;> rfl
  · intro env body
    unfold PydanticSample.structured_script
    cases env "GITHUB_TOKEN" with
    | none => rfl
    | some t => cases body <;> rfl
  · intro e fileExists readFile
    rfl
  · intro env rest
    unfold DemoAutogen.autogen_script
    cases env "GITHUB_TOKEN" with
    | none => rfl
    | some t => cases rest <;> rfl

end CodespacesModels
